import Mathlib

/-!
Verification of the reporting engine of the `signalk-windy-apiv2` plugin
(`src/index.js`, version 1.2.0: the second snapshot in the file).

The engine is shallowly embedded: JavaScript numbers are modelled as real
numbers, timestamps (epoch milliseconds) as reals, and the module-level
mutable variables (`lastSentPos`, `currentDistance`, `nextRunTime`, `kx`,
`peakGust`) as one explicit record threaded through the functions.  Network
calls are modelled by their observable requests (a list of events emitted by
one reporting cycle) together with an environment-chosen outcome for each
call; the callback side effects of the source are applied on the matching
outcome exactly where the source applies them.
-/

namespace Windy

/-- A position delivered by the sensor bus (`navigation.position` value). -/
structure Pos where
  latitude : ℝ
  longitude : ℝ

/-- The `{lat, lon}` record stored in the module variable `lastSentPos`. -/
structure LatLon where
  lat : ℝ
  lon : ℝ

/-- The engine's module-level mutable state (index.js lines 366-373):
`lastSentPos`, `currentDistance`, `nextRunTime`, `kx`, `peakGust`. -/
structure EngineState where
  lastSentPos : LatLon
  currentDistance : ℝ
  nextRunTime : ℝ
  kx : ℝ
  peakGust : ℝ

/-- Initial values of the module variables (index.js lines 366-373). -/
def initialState : EngineState :=
  { lastSentPos := { lat := 0, lon := 0 }
    currentDistance := 0
    nextRunTime := 0
    kx := 1
    peakGust := 0 }

/-- JavaScript truthiness test `!lastSentPos.lat` used to decide whether the
movement-guard baseline has been seeded: the guard is seeded exactly when the
stored latitude is non-zero (a zero latitude is falsy in JS). -/
def isSeeded (s : EngineState) : Prop :=
  s.lastSentPos.lat ≠ 0

/-- JavaScript `x || d` on an optional numeric field: an absent field or the
(falsy) value 0 yields the default. -/
noncomputable def jsOrR (x : Option ℝ) (d : ℝ) : ℝ :=
  match x with
  | none => d
  | some v => if v = 0 then d else v

/-- JavaScript `Math.round`: round half toward positive infinity. -/
noncomputable def jsRound (x : ℝ) : ℤ :=
  ⌊x + 1 / 2⌋

/-- JavaScript `Number(x.toFixed(1))`: one decimal place. -/
noncomputable def jsToFixed1 (x : ℝ) : ℝ :=
  (jsRound (x * 10) : ℝ) / 10

/-- JavaScript `Number(x.toFixed(5))`: five decimal places, used for the
coordinates of the metadata payload (index.js lines 678-679). -/
noncomputable def roundTo5 (x : ℝ) : ℝ :=
  (jsRound (x * 100000) : ℝ) / 100000

/-- The configuration fields the engine branches on (`options.interval`,
`options.minMove`); both may be absent and default via `||`. -/
structure Options where
  interval : Option ℝ
  minMove : Option ℝ

/-- `handlePositionUpdate` (index.js lines 633-642, v1.2.0).  On an unseeded
baseline (`!lastSentPos.lat`) the sample seeds the baseline and the scaling
factor `kx`; otherwise the distance from the fixed baseline to the sample is
recomputed (a radius, not an accumulating odometer). -/
noncomputable def handlePositionUpdate (s : EngineState) (pos : Pos) : EngineState :=
  if s.lastSentPos.lat = 0 then
    { s with lastSentPos := { lat := pos.latitude, lon := pos.longitude }
             kx := Real.cos (pos.latitude * Real.pi / 180) }
  else
    let dx := (pos.longitude - s.lastSentPos.lon) * s.kx
    let dy := pos.latitude - s.lastSentPos.lat
    { s with currentDistance := Real.sqrt (dx * dx + dy * dy) * 111319 }

/-- The equirectangular radius formula of `handlePositionUpdate`: degrees of
displacement scaled by 111319 metres per degree. -/
noncomputable def equirect (base : LatLon) (kx : ℝ) (p : Pos) : ℝ :=
  let dx := (p.longitude - base.lon) * kx
  let dy := p.latitude - base.lat
  Real.sqrt (dx * dx + dy * dy) * 111319

/-- Peak-gust tracking in the subscription callback (index.js lines 578-580):
`if (v.value > peakGust) peakGust = v.value`. -/
noncomputable def samplePeak (s : EngineState) (v : ℝ) : EngineState :=
  if s.peakGust < v then { s with peakGust := v } else s

/-- The observation snapshot built by `getStationData`: each key is present
exactly when the sensor-bus value is, already converted to the wire unit. -/
structure Weather where
  wind : Option ℝ
  gust : Option ℝ
  winddir : Option ℤ
  temp : Option ℝ
  pressure : Option ℤ
  rh : Option ℤ

/-- `Object.keys(weather).length > 0` (index.js line 716). -/
def weatherNonempty (w : Weather) : Bool :=
  w.wind.isSome || w.gust.isSome || w.winddir.isSome || w.temp.isSome ||
    w.pressure.isSome || w.rh.isSome

/-- The sensor-bus values read by `getStationData`; `none` models an absent
path or a `null` value (the `if (x && x.value !== null)` guards). -/
structure SensorReadings where
  windSpeed : Option ℝ
  windGust : Option ℝ
  windDir : Option ℝ
  temp : Option ℝ
  pressure : Option ℝ
  humidity : Option ℝ

/-- `getStationData` (index.js lines 762-786, v1.2.0): unit conversions
K → °C (`v - 273.15`), ratio → % (`v * 100`), radians → degrees
(`Math.round(v * 180 / Math.PI)`, with no wrapping), pressure rounded,
speeds kept in the wire unit at one decimal. -/
noncomputable def getStationData (r : SensorReadings) : Weather :=
  { wind := r.windSpeed.map jsToFixed1
    gust := r.windGust.map jsToFixed1
    winddir := r.windDir.map (fun v => jsRound (v * 180 / Real.pi))
    temp := r.temp.map (fun v => jsToFixed1 (v - 273.15))
    pressure := r.pressure.map jsRound
    rh := r.humidity.map (fun v => jsRound (v * 100)) }

/-- The gap-closer substitution (index.js lines 658-660):
`if (peakGust > (weather.gust || 0)) weather.gust = peakGust.toFixed(1)`. -/
noncomputable def applyPeakGust (w : Weather) (peak : ℝ) : Weather :=
  if w.gust.getD 0 < peak then { w with gust := some (jsToFixed1 peak) } else w

/-- Outcome of one HTTP call, chosen by the environment.  A failure carries
the response status (when a response arrived) and any rate-limit retry-after
duration; the source reads neither beyond logging them. -/
inductive NetResult where
  | success
  | failure (status : Option ℕ) (retryAfter : Option ℝ)

/-- The observable network requests of one reporting cycle.  The metadata PUT
payload also carries identity and sensor-height fields taken verbatim from
the configuration; they do not influence the engine state and are elided. -/
inductive NetEvent where
  | metadataPut (lat lon : ℝ)
  | observationGet (w : Weather)

/-- Step 1 of `reportToWindy` (index.js lines 662-711): when a position is
available and `shouldUpdateGPS` holds (`force || currentDistance >=
(options.minMove || 300)`), the metadata PUT is issued; on success the
baseline, `kx` and `currentDistance` are committed (lines 700-702); on
failure the state is left unchanged and the cycle continues. -/
noncomputable def metadataPhase (opts : Options) (s : EngineState) (posR : Option Pos)
    (force : Bool) (metaR : NetResult) : EngineState × List NetEvent :=
  match posR with
  | none => (s, [])
  | some pv =>
    if force = true ∨ jsOrR opts.minMove 300 ≤ s.currentDistance then
      match metaR with
      | .success =>
          ({ s with lastSentPos := { lat := pv.latitude, lon := pv.longitude }
                    kx := Real.cos (pv.latitude * Real.pi / 180)
                    currentDistance := 0 },
           [.metadataPut (roundTo5 pv.latitude) (roundTo5 pv.longitude)])
      | .failure _ _ =>
          (s, [.metadataPut (roundTo5 pv.latitude) (roundTo5 pv.longitude)])
    else (s, [])

/-- Step 2 of `reportToWindy` (index.js lines 713-754): when the snapshot is
non-empty the observation GET is issued; on success `peakGust` is reset to 0
(line 746); on failure the state is left unchanged. -/
noncomputable def observationPhase (s : EngineState) (w : Weather) (obsR : NetResult) :
    EngineState × List NetEvent :=
  if weatherNonempty w then
    match obsR with
    | .success => ({ s with peakGust := 0 }, [.observationGet w])
    | .failure _ _ => (s, [.observationGet w])
  else (s, [])

/-- `reportToWindy` (index.js lines 652-755, v1.2.0): build the snapshot,
apply the peak-gust substitution, run the metadata phase, then (sequentially,
the PUT is awaited) the observation phase. -/
noncomputable def reportToWindy (opts : Options) (s : EngineState) (readings : SensorReadings)
    (posR : Option Pos) (force : Bool) (metaR obsR : NetResult) :
    EngineState × List NetEvent :=
  let w := applyPeakGust (getStationData readings) s.peakGust
  let m := metadataPhase opts s posR force metaR
  let o := observationPhase m.1 w obsR
  (o.1, m.2 ++ o.2)

/-- `scheduleNext` (index.js lines 791-804): the next run time is always
`Date.now() + (options.interval || 5) * 60000`. -/
noncomputable def scheduleNext (opts : Options) (now : ℝ) (s : EngineState) : EngineState :=
  { s with nextRunTime := now + jsOrR opts.interval 5 * 60000 }

/-- One timer fire (`reportToWindy(options); scheduleNext(options)`,
index.js lines 799-803). -/
noncomputable def cycleAndSchedule (opts : Options) (s : EngineState)
    (readings : SensorReadings) (posR : Option Pos) (force : Bool)
    (metaR obsR : NetResult) (now : ℝ) : EngineState × List NetEvent :=
  let r := reportToWindy opts s readings posR force metaR obsR
  (scheduleNext opts now r.1, r.2)

/-- The startup timer decision (index.js lines 584-605): with
`remainingTime = nextRunTime - Date.now()`, a non-positive remainder takes
the 15-second warm-up (and sets `nextRunTime` to `now + 15000`); otherwise a
timer is armed for exactly the remainder.  Returns the new state and the
armed delay in milliseconds. -/
noncomputable def startSchedule (s : EngineState) (now : ℝ) : EngineState × ℝ :=
  let remaining := s.nextRunTime - now
  if remaining ≤ 0 then ({ s with nextRunTime := now + 15000 }, 15000)
  else (s, remaining)

/-- The JSON record written to `state.json` (index.js line 616); each field
may be absent in a hand-edited or foreign file, hence `Option`. -/
structure StoredState where
  lastSentPos : Option LatLon
  currentDistance : Option ℝ
  nextRunTime : Option ℝ

/-- The three possible results of reading `state.json` at startup: the file
is missing (`fs.existsSync` false), its contents fail `JSON.parse` (the
exception is thrown before any assignment and swallowed by the `catch`), or
a parsed record. -/
inductive StateFileRead where
  | missing
  | unparsable
  | parsed (r : StoredState)

/-- The state-load block of `plugin.start` (index.js lines 551-560, v1.2.0).
A missing or unparsable file leaves every module variable at its initial
value; a parsed record is read with `||` defaults, and `kx` is recomputed
only when the loaded latitude is truthy. -/
noncomputable def loadState (init : EngineState) : StateFileRead → EngineState
  | .missing => init
  | .unparsable => init
  | .parsed r =>
    let lp := r.lastSentPos.getD { lat := 0, lon := 0 }
    let s := { init with lastSentPos := lp
                         currentDistance := jsOrR r.currentDistance 0
                         nextRunTime := jsOrR r.nextRunTime 0 }
    if lp.lat = 0 then s else { s with kx := Real.cos (lp.lat * Real.pi / 180) }

/-- The state-save block of `plugin.stop` (index.js lines 608-622):
`{ lastSentPos, currentDistance, nextRunTime }` is serialized. -/
def saveState (s : EngineState) : StoredState :=
  { lastSentPos := some s.lastSentPos
    currentDistance := some s.currentDistance
    nextRunTime := some s.nextRunTime }

/-- The two ways the movement-guard state changes: a position sample from
the subscription callback (`handlePositionUpdate`), and a baseline commit
performed by a successful metadata PUT (index.js lines 700-702). -/
inductive GuardOp where
  | observe (p : Pos)
  | commit (p : Pos)

/-- A record of one displacement computation taken by the compute branch of
`handlePositionUpdate`: the baseline it measured from and the sample. -/
structure DispComp where
  baseLat : ℝ
  baseLon : ℝ
  sample : Pos

/-- One movement-guard transition, instrumented with the displacement
computations it performs.  The `observe` case is `handlePositionUpdate`
itself; its compute branch (taken exactly when the stored latitude is
truthy) is recorded as a `DispComp`.  The `commit` case is the baseline
reset of the metadata-success callback. -/
noncomputable def guardStep (s : EngineState) : GuardOp → EngineState × List DispComp
  | .observe p =>
      (handlePositionUpdate s p,
       if s.lastSentPos.lat = 0 then []
       else [{ baseLat := s.lastSentPos.lat, baseLon := s.lastSentPos.lon, sample := p }])
  | .commit p =>
      ({ s with lastSentPos := { lat := p.latitude, lon := p.longitude }
                kx := Real.cos (p.latitude * Real.pi / 180)
                currentDistance := 0 }, [])

/-- Run a sequence of movement-guard operations, collecting the displacement
computations in order. -/
noncomputable def guardRun (s : EngineState) : List GuardOp → EngineState × List DispComp
  | [] => (s, [])
  | op :: ops =>
      let r := guardStep s op
      let r2 := guardRun r.1 ops
      (r2.1, r.2 ++ r2.2)

/-- A concrete sensor reading with only wind speed present, used by several
witnesses below. -/
def readingsWind : SensorReadings :=
  { windSpeed := some 5, windGust := none, windDir := none
    temp := none, pressure := none, humidity := none }

/-- A concrete sensor reading with only a wind direction of π radians. -/
noncomputable def readingsDir : SensorReadings :=
  { windSpeed := none, windGust := none, windDir := some Real.pi
    temp := none, pressure := none, humidity := none }

/-- A concrete sensor reading with only a wind direction of −π/2 radians. -/
noncomputable def readingsNegDir : SensorReadings :=
  { windSpeed := none, windGust := none, windDir := some (-(Real.pi / 2))
    temp := none, pressure := none, humidity := none }

/-- The (0, 0) no-fix sentinel sample. -/
def zeroPos : Pos :=
  { latitude := 0, longitude := 0 }

/-- The displacement computation triggered by observing the (0, 0) sentinel
from a guard seeded at (10, 20). -/
def demoDisp : DispComp :=
  { baseLat := 10, baseLon := 20, sample := zeroPos }

/-- A movement-guard state seeded at latitude 10, longitude 20. -/
def guardDemoState : EngineState :=
  { lastSentPos := { lat := 10, lon := 20 }
    currentDistance := 0
    nextRunTime := 0
    kx := 1
    peakGust := 0 }

/-- Concrete trace for refuting monotonicity of the movement guard: seed the
baseline at (10, 20). -/
noncomputable def cexS0 : EngineState :=
  handlePositionUpdate initialState { latitude := 10, longitude := 20 }

/-- Next the trace observes a sample 0.01 degrees of latitude north. -/
noncomputable def cexS1 : EngineState :=
  handlePositionUpdate cexS0 { latitude := 10.01, longitude := 20 }

/-- Finally the trace observes a sample only 0.005 degrees north: the
vessel moved back toward the baseline. -/
noncomputable def cexS2 : EngineState :=
  handlePositionUpdate cexS1 { latitude := 10.005, longitude := 20 }

end Windy

namespace Windy

/-! ## Helper lemmas -/

/-- A seeded baseline is left untouched by `handlePositionUpdate`: the
compute branch only rewrites `currentDistance`. -/
theorem handlePositionUpdate_seeded (s : EngineState) (p : Pos)
    (h : s.lastSentPos.lat ≠ 0) :
    handlePositionUpdate s p =
      { s with currentDistance := equirect s.lastSentPos s.kx p } := by
  simp [handlePositionUpdate, equirect, h]

/-- Folding any sample list over a seeded state preserves the baseline, the
scaling factor and the peak. -/
theorem foldl_handlePositionUpdate_fields (ps : List Pos) :
    ∀ s : EngineState, s.lastSentPos.lat ≠ 0 →
      (ps.foldl handlePositionUpdate s).lastSentPos = s.lastSentPos ∧
      (ps.foldl handlePositionUpdate s).kx = s.kx := by
  induction ps with
  | nil => intro s _; exact ⟨rfl, rfl⟩
  | cons q qs ih =>
    intro s hs
    have hstep := handlePositionUpdate_seeded s q hs
    have hlat : (handlePositionUpdate s q).lastSentPos.lat ≠ 0 := by
      rw [hstep]; exact hs
    have := ih (handlePositionUpdate s q) hlat
    simp only [List.foldl_cons]
    refine ⟨?_, ?_⟩
    · rw [this.1, hstep]
    · rw [this.2, hstep]

/-- The observation phase never touches the movement-guard distance. -/
theorem observationPhase_currentDistance (s : EngineState) (w : Weather)
    (obsR : NetResult) :
    (observationPhase s w obsR).1.currentDistance = s.currentDistance := by
  unfold observationPhase
  split_ifs
  · cases obsR <;> rfl
  · rfl

/-- The equirectangular radius along a meridian: with equal longitudes the
scaled cross-track term vanishes and the radius is the latitude difference
times 111319 metres per degree. -/
theorem equirect_same_lon (lat0 lon0 k lat1 : ℝ) (h : lat0 ≤ lat1) :
    equirect { lat := lat0, lon := lon0 } k { latitude := lat1, longitude := lon0 }
      = (lat1 - lat0) * 111319 := by
  show Real.sqrt ((lon0 - lon0) * k * ((lon0 - lon0) * k) +
      (lat1 - lat0) * (lat1 - lat0)) * 111319 = (lat1 - lat0) * 111319
  have hsq : (lon0 - lon0) * k * ((lon0 - lon0) * k) +
      (lat1 - lat0) * (lat1 - lat0) = (lat1 - lat0) ^ 2 := by ring
  rw [hsq, Real.sqrt_sq (by linarith)]

/-- Evaluating the seed step of the counterexample trace. -/
theorem cexS0_eq :
    cexS0 = { initialState with lastSentPos := { lat := 10, lon := 20 }
                                kx := Real.cos (10 * Real.pi / 180) } := by
  simp [cexS0, handlePositionUpdate, initialState]

/-- The first observed sample leaves the guard 1113.19 m from baseline. -/
theorem cexS1_dist : cexS1.currentDistance = 0.01 * 111319 := by
  have hs : cexS0.lastSentPos.lat ≠ 0 := by
    rw [cexS0_eq]; norm_num
  rw [cexS1, handlePositionUpdate_seeded cexS0 _ hs]
  show equirect cexS0.lastSentPos cexS0.kx _ = _
  rw [cexS0_eq]
  show equirect { lat := 10, lon := 20 } _ _ = _
  rw [equirect_same_lon 10 20 _ 10.01 (by norm_num)]
  norm_num

/-- The second observed sample leaves the guard only 556.595 m from
baseline: the reported distance decreased with no intervening commit. -/
theorem cexS2_dist : cexS2.currentDistance = 0.005 * 111319 := by
  have hs0 : cexS0.lastSentPos.lat ≠ 0 := by
    rw [cexS0_eq]; norm_num
  have hbase : cexS1.lastSentPos = cexS0.lastSentPos ∧ cexS1.kx = cexS0.kx := by
    rw [cexS1, handlePositionUpdate_seeded cexS0 _ hs0]
    exact ⟨rfl, rfl⟩
  have hs1 : cexS1.lastSentPos.lat ≠ 0 := by
    rw [hbase.1]; exact hs0
  rw [cexS2, handlePositionUpdate_seeded cexS1 _ hs1]
  show equirect cexS1.lastSentPos cexS1.kx _ = _
  rw [hbase.1, hbase.2, cexS0_eq]
  show equirect { lat := 10, lon := 20 } _ _ = _
  rw [equirect_same_lon 10 20 _ 10.005 (by norm_num)]
  norm_num

/-- The metadata phase never touches the peak-gust tracker, whatever its
outcome: only the observation callback resets it. -/
theorem metadataPhase_peakGust (opts : Options) (s : EngineState)
    (posR : Option Pos) (force : Bool) (metaR : NetResult) :
    (metadataPhase opts s posR force metaR).1.peakGust = s.peakGust := by
  unfold metadataPhase
  cases posR with
  | none => rfl
  | some pv =>
    dsimp only
    split_ifs
    · cases metaR <;> rfl
    · rfl

/-- With only wind speed present and a zero peak, the snapshot entering the
observation phase is non-empty. -/
theorem readingsWind_nonempty :
    weatherNonempty (applyPeakGust (getStationData readingsWind) 0) = true := by
  simp [weatherNonempty, applyPeakGust, getStationData, readingsWind]

/-! ## Claims -/

/-- C7: On engine start, a persisted next-run timestamp in the past (or the
unset value 0, which is never larger than the current epoch time) arms the
fixed 15-second warm-up timer before the first report, while a timestamp in
the future arms a timer for exactly the remaining duration — which is
positive, so no report fires immediately. -/
theorem C7_start_schedule (s : EngineState) (now : ℝ) :
    (s.nextRunTime ≤ now →
      (startSchedule s now).2 = 15000 ∧
      (startSchedule s now).1.nextRunTime = now + 15000) ∧
    (now < s.nextRunTime →
      (startSchedule s now).2 = s.nextRunTime - now ∧
      0 < (startSchedule s now).2) := by
  constructor
  · intro h
    have hle : s.nextRunTime - now ≤ 0 := by linarith
    simp [startSchedule, hle]
  · intro h
    have hgt : ¬ s.nextRunTime - now ≤ 0 := by linarith
    constructor
    · simp [startSchedule, hgt]
    · simp only [startSchedule, if_neg hgt]
      linarith

/-- Witness for C7 at concrete inputs: a persisted `nextRunTime` of 0 at
`now = 50000` warms up for 15 s, and a persisted `nextRunTime` of
`now + 120000` at `now = 0` arms a 120-second timer without firing. -/
theorem C7_start_schedule_witness :
    ((initialState.nextRunTime ≤ 50000 ∧
      (startSchedule initialState 50000).2 = 15000) ∧
     ((0 : ℝ) < ({ initialState with nextRunTime := 120000 } : EngineState).nextRunTime ∧
      (startSchedule { initialState with nextRunTime := 120000 } 0).2 = 120000 - 0 ∧
      0 < (startSchedule { initialState with nextRunTime := 120000 } 0).2)) := by
  have h1 : initialState.nextRunTime ≤ (50000 : ℝ) := by norm_num [initialState]
  have h2 : (0 : ℝ) <
      ({ initialState with nextRunTime := 120000 } : EngineState).nextRunTime := by
    norm_num
  refine ⟨⟨h1, ((C7_start_schedule initialState 50000).1 h1).1⟩, h2, ?_, ?_⟩
  · exact ((C7_start_schedule { initialState with nextRunTime := 120000 } 0).2 h2).1
  · exact ((C7_start_schedule { initialState with nextRunTime := 120000 } 0).2 h2).2

/-- C8: loading the state record saved at shutdown reproduces the persisted
triple — baseline position, accumulated distance and next-run timestamp —
exactly (the model uses exact reals, so "within floating-point tolerance"
becomes equality). -/
theorem C8_save_load_roundtrip (init s : EngineState) :
    (loadState init (.parsed (saveState s))).lastSentPos = s.lastSentPos ∧
    (loadState init (.parsed (saveState s))).currentDistance = s.currentDistance ∧
    (loadState init (.parsed (saveState s))).nextRunTime = s.nextRunTime := by
  have hd : jsOrR (some s.currentDistance) 0 = s.currentDistance := by
    unfold jsOrR
    split <;> simp_all
  have hn : jsOrR (some s.nextRunTime) 0 = s.nextRunTime := by
    unfold jsOrR
    split <;> simp_all
  simp only [loadState, saveState, Option.getD_some]
  split_ifs <;> exact ⟨rfl, hd, hn⟩

/-- C10: a missing or unparsable state file never aborts `plugin.start`
(the load is a total function whose exception path is the swallowed
`catch`): the engine keeps the fresh defaults — no baseline, accumulated
distance 0, next run due now — and from those defaults the 15-second
warm-up path is taken for any non-negative current time. -/
theorem C10_fresh_state_on_bad_file :
    loadState initialState .missing = initialState ∧
    loadState initialState .unparsable = initialState ∧
    ¬ isSeeded initialState ∧
    initialState.currentDistance = 0 ∧
    (∀ now : ℝ, 0 ≤ now →
      (startSchedule (loadState initialState .missing) now).2 = 15000) := by
  refine ⟨rfl, rfl, ?_, rfl, ?_⟩
  · simp [isSeeded, initialState]
  · intro now hnow
    have hle : (loadState initialState .missing).nextRunTime - now ≤ 0 := by
      show initialState.nextRunTime - now ≤ 0
      simp only [initialState]
      linarith
    simp [startSchedule, hle]

/-- Witness for C10 at `now = 7000`: the warm-up delay is armed. -/
theorem C10_fresh_state_on_bad_file_witness :
    (0 : ℝ) ≤ 7000 ∧
    (startSchedule (loadState initialState .missing) 7000).2 = 15000 := by
  refine ⟨by norm_num, ?_⟩
  exact C10_fresh_state_on_bad_file.2.2.2.2 7000 (by norm_num)

/-- C1 is false on the code: a cycle whose observation submission fails with
HTTP 429 carrying `retryAfter = 600000` still schedules the next run at
`now + configuredInterval` (here `0 + 5 * 60000 = 300000`), not at
`now + 600000`; the observation request was genuinely issued in this cycle.
The error handler (index.js lines 747-751) only logs the status and
`scheduleNext` (lines 791-804) never reads a retry-after value. -/
theorem C1_counterexample :
    (cycleAndSchedule { interval := some 5, minMove := none } initialState
        readingsWind none false NetResult.success
        (NetResult.failure (some 429) (some 600000)) 0).1.nextRunTime = 300000 ∧
    NetEvent.observationGet (applyPeakGust (getStationData readingsWind)
        initialState.peakGust)
      ∈ (cycleAndSchedule { interval := some 5, minMove := none } initialState
          readingsWind none false NetResult.success
          (NetResult.failure (some 429) (some 600000)) 0).2 ∧
    (300000 : ℝ) ≠ 0 + 600000 := by
  have hw : weatherNonempty (applyPeakGust (getStationData readingsWind)
      initialState.peakGust) = true := readingsWind_nonempty
  refine ⟨?_, ?_, by norm_num⟩
  · show (0 : ℝ) + jsOrR (some 5) 5 * 60000 = 300000
    norm_num [jsOrR]
  · simp only [cycleAndSchedule, reportToWindy, metadataPhase, observationPhase, hw]
    simp

/-- C1 amended: no failure kind overrides the schedule — every timer fire
sets the next run time to `now + (options.interval || 5) * 60000`,
whatever the outcomes of the two submissions. -/
theorem C1_amended_schedule_ignores_outcomes (opts : Options) (s : EngineState)
    (readings : SensorReadings) (posR : Option Pos) (force : Bool)
    (metaR obsR : NetResult) (now : ℝ) :
    (cycleAndSchedule opts s readings posR force metaR obsR now).1.nextRunTime
      = now + jsOrR opts.interval 5 * 60000 := rfl

/-- C3: in a cycle where the position update is due (force flag, or distance
at or above the threshold) and a position is available, and the snapshot is
non-empty, the emitted request sequence is exactly the metadata PUT followed
by the observation GET — the metadata submission is issued and (the source
awaits the PUT) completed before the observation is issued, whatever either
outcome. -/
theorem C3_metadata_before_observation (opts : Options) (s : EngineState)
    (readings : SensorReadings) (p : Pos) (force : Bool) (metaR obsR : NetResult)
    (hdue : force = true ∨ jsOrR opts.minMove 300 ≤ s.currentDistance)
    (hw : weatherNonempty (applyPeakGust (getStationData readings) s.peakGust) = true) :
    (reportToWindy opts s readings (some p) force metaR obsR).2 =
      [NetEvent.metadataPut (roundTo5 p.latitude) (roundTo5 p.longitude),
       NetEvent.observationGet (applyPeakGust (getStationData readings) s.peakGust)] := by
  simp only [reportToWindy, metadataPhase]
  rw [if_pos hdue]
  cases metaR <;> cases obsR <;> simp [observationPhase, hw]

/-- Witness for C3: with the force flag set, a position fix and a wind
reading, the cycle emits the PUT then the GET. -/
theorem C3_metadata_before_observation_witness :
    ((true = true ∨
        jsOrR ({ interval := none, minMove := none } : Options).minMove 300 ≤
          initialState.currentDistance) ∧
     weatherNonempty (applyPeakGust (getStationData readingsWind)
        initialState.peakGust) = true) ∧
    (reportToWindy { interval := none, minMove := none } initialState readingsWind
        (some { latitude := 1, longitude := 2 }) true
        NetResult.success NetResult.success).2 =
      [NetEvent.metadataPut (roundTo5 1) (roundTo5 2),
       NetEvent.observationGet (applyPeakGust (getStationData readingsWind)
          initialState.peakGust)] := by
  refine ⟨⟨Or.inl rfl, readingsWind_nonempty⟩, ?_⟩
  exact C3_metadata_before_observation { interval := none, minMove := none }
    initialState readingsWind { latitude := 1, longitude := 2 } true
    NetResult.success NetResult.success (Or.inl rfl) readingsWind_nonempty

/-- C5: the peak-gust tracker is monotone under sampling, is reset to 0
exactly by a successful observation submission (the metadata phase never
touches it, and an empty snapshot — no submission — retains it), and a
failed submission leaves it unchanged for the next attempt. -/
theorem C5_peak_gust_tracker :
    (∀ (s : EngineState) (v : ℝ), s.peakGust ≤ (samplePeak s v).peakGust) ∧
    (∀ (opts : Options) (s : EngineState) (readings : SensorReadings)
        (posR : Option Pos) (force : Bool) (metaR obsR : NetResult),
      (obsR = NetResult.success →
        weatherNonempty (applyPeakGust (getStationData readings) s.peakGust) = true →
        (reportToWindy opts s readings posR force metaR obsR).1.peakGust = 0) ∧
      (weatherNonempty (applyPeakGust (getStationData readings) s.peakGust) = false →
        (reportToWindy opts s readings posR force metaR obsR).1.peakGust = s.peakGust) ∧
      (∀ st ra, obsR = NetResult.failure st ra →
        (reportToWindy opts s readings posR force metaR obsR).1.peakGust = s.peakGust)) := by
  constructor
  · intro s v
    unfold samplePeak
    split_ifs with h
    · exact le_of_lt h
    · exact le_refl _
  · intro opts s readings posR force metaR obsR
    have hm := metadataPhase_peakGust opts s posR force metaR
    refine ⟨?_, ?_, ?_⟩
    · intro hobs hw
      subst hobs
      simp [reportToWindy, observationPhase, hw]
    · intro hw
      cases obsR <;> simp [reportToWindy, observationPhase, hw, hm]
    · intro st ra hobs
      subst hobs
      by_cases hw : weatherNonempty
          (applyPeakGust (getStationData readings) s.peakGust) = true
      · simp [reportToWindy, observationPhase, hw, hm]
      · simp only [Bool.not_eq_true] at hw
        simp [reportToWindy, observationPhase, hw, hm]

/-- Witness for C5: sampling 5 from the initial state does not decrease the
peak, and a failed observation submission (status 500) retains the peak. -/
theorem C5_peak_gust_tracker_witness :
    initialState.peakGust ≤ (samplePeak initialState 5).peakGust ∧
    (reportToWindy { interval := none, minMove := none } initialState readingsWind
        none false NetResult.success (NetResult.failure (some 500) none)).1.peakGust
      = initialState.peakGust := by
  refine ⟨C5_peak_gust_tracker.1 initialState 5, ?_⟩
  exact (C5_peak_gust_tracker.2 { interval := none, minMove := none } initialState
    readingsWind none false NetResult.success
    (NetResult.failure (some 500) none)).2.2 (some 500) none rfl

/-- C6: a failing metadata submission (any status, 401 included) never
prevents the observation phase: with a non-empty snapshot the observation
GET is still issued in the same cycle, and when it succeeds its side effect
(the peak reset) is applied independently of the metadata failure. -/
theorem C6_metadata_failure_not_blocking (opts : Options) (s : EngineState)
    (readings : SensorReadings) (posR : Option Pos) (force : Bool)
    (st : Option ℕ) (ra : Option ℝ) (obsR : NetResult)
    (hw : weatherNonempty (applyPeakGust (getStationData readings) s.peakGust) = true) :
    NetEvent.observationGet (applyPeakGust (getStationData readings) s.peakGust)
      ∈ (reportToWindy opts s readings posR force (.failure st ra) obsR).2 ∧
    (obsR = NetResult.success →
      (reportToWindy opts s readings posR force (.failure st ra) obsR).1.peakGust = 0) := by
  constructor
  · cases obsR <;>
      simp [reportToWindy, observationPhase, hw, List.mem_append]
  · intro hobs
    subst hobs
    simp [reportToWindy, observationPhase, hw]

/-- Witness for C6: a 401 metadata failure with a wind reading present still
issues the observation GET, and the successful observation resets the peak. -/
theorem C6_metadata_failure_not_blocking_witness :
    weatherNonempty (applyPeakGust (getStationData readingsWind)
        initialState.peakGust) = true ∧
    NetEvent.observationGet (applyPeakGust (getStationData readingsWind)
        initialState.peakGust)
      ∈ (reportToWindy { interval := none, minMove := none } initialState
          readingsWind (some { latitude := 1, longitude := 2 }) true
          (.failure (some 401) none) NetResult.success).2 ∧
    (reportToWindy { interval := none, minMove := none } initialState readingsWind
        (some { latitude := 1, longitude := 2 }) true
        (.failure (some 401) none) NetResult.success).1.peakGust = 0 := by
  refine ⟨readingsWind_nonempty, ?_, ?_⟩
  · exact (C6_metadata_failure_not_blocking { interval := none, minMove := none }
      initialState readingsWind (some { latitude := 1, longitude := 2 }) true
      (some 401) none NetResult.success readingsWind_nonempty).1
  · exact (C6_metadata_failure_not_blocking { interval := none, minMove := none }
      initialState readingsWind (some { latitude := 1, longitude := 2 }) true
      (some 401) none NetResult.success readingsWind_nonempty).2 rfl

/-- C2 is false on the code in two ways, shown on one concrete trace with no
commit: after seeding the baseline at (10, 20), a sample 0.01° north puts
the reported distance at `0.01 * 111319` m, and a following sample only
0.005° north makes it *decrease* to `0.005 * 111319` m — the distance is a
radius recomputed from the latest sample, not monotone between commits.
Moreover the first reported value differs from the claim's formula
`6371000 * sqrt(dx² + dy²)` with dx, dy in radians (here
`6371000 * (0.01 * π / 180)`): the code scales degrees by 111319 m/deg,
an Earth radius of ≈ 6378137 m, not 6371000 m. -/
theorem C2_counterexample :
    cexS2.currentDistance < cexS1.currentDistance ∧
    cexS1.currentDistance ≠ 6371000 * (0.01 * Real.pi / 180) := by
  constructor
  · rw [cexS1_dist, cexS2_dist]
    norm_num
  · rw [cexS1_dist]
    have hπ : Real.pi < 3.141593 := Real.pi_lt_d6
    have hlt : 6371000 * (0.01 * Real.pi / 180) < 0.01 * 111319 := by nlinarith
    exact (ne_of_gt hlt)

/-- C2 amended: between commits the reported distance equals the
equirectangular radius formula applied to the pair (baseline, latest
sample), with dx, dy in degrees and the scale factor 111319 m/deg
(equivalently an Earth radius of ≈ 6378137 m, not 6371000 m); it is
recomputed on every sample and may decrease (it is not monotone); a
successful metadata commit resets it to 0. -/
theorem C2_amended_radius_from_baseline :
    (∀ (s : EngineState) (ps : List Pos) (p : Pos), isSeeded s →
      ((ps ++ [p]).foldl handlePositionUpdate s).currentDistance
        = equirect s.lastSentPos s.kx p) ∧
    (∀ (opts : Options) (s : EngineState) (readings : SensorReadings) (p : Pos)
        (obsR : NetResult),
      (reportToWindy opts s readings (some p) true
          NetResult.success obsR).1.currentDistance = 0) := by
  constructor
  · intro s ps p
    induction ps generalizing s with
    | nil =>
      intro hs
      show (handlePositionUpdate s p).currentDistance = _
      rw [handlePositionUpdate_seeded s p hs]
    | cons q qs ih =>
      intro hs
      have hstep := handlePositionUpdate_seeded s q hs
      have hlat : (handlePositionUpdate s q).lastSentPos.lat ≠ 0 := by
        rw [hstep]; exact hs
      have hrec := ih (handlePositionUpdate s q) hlat
      simp only [List.cons_append, List.foldl_cons] at *
      rw [hrec, hstep]
  · intro opts s readings p obsR
    show (observationPhase (metadataPhase opts s (some p) true .success).1 _
        obsR).1.currentDistance = 0
    rw [observationPhase_currentDistance]
    simp [metadataPhase]

/-- Witness for C2 amended: the seeded counterexample state satisfies the
radius formula at a concrete sample, and a forced successful metadata
commit zeroes the distance. -/
theorem C2_amended_radius_from_baseline_witness :
    isSeeded cexS0 ∧
    (([] ++ [({ latitude := 10.01, longitude := 20 } : Pos)]).foldl
        handlePositionUpdate cexS0).currentDistance
      = equirect cexS0.lastSentPos cexS0.kx { latitude := 10.01, longitude := 20 } ∧
    (reportToWindy { interval := none, minMove := none } initialState readingsWind
        (some { latitude := 1, longitude := 2 }) true NetResult.success
        NetResult.success).1.currentDistance = 0 := by
  have hs : isSeeded cexS0 := by
    show cexS0.lastSentPos.lat ≠ 0
    rw [cexS0_eq]; norm_num
  exact ⟨hs,
    C2_amended_radius_from_baseline.1 cexS0 [] { latitude := 10.01, longitude := 20 } hs,
    C2_amended_radius_from_baseline.2 { interval := none, minMove := none }
      initialState readingsWind { latitude := 1, longitude := 2 } NetResult.success⟩

/-- C4 is false on the code: `getStationData` computes
`Math.round(value * 180 / Math.PI)` with no wrapping, so the upstream
bearing −π/2 rad is placed in the snapshot as −90°, which is not in
[0, 360). -/
theorem C4_counterexample :
    (getStationData readingsNegDir).winddir = some (-90) ∧
    ¬ ((0 : ℤ) ≤ -90 ∧ (-90 : ℤ) < 360) := by
  constructor
  · have hcalc : -(Real.pi / 2 * 180) / Real.pi = -90 := by
      field_simp
      ring
    have hfloor : jsRound (-(Real.pi / 2 * 180) / Real.pi) = -90 := by
      rw [hcalc]
      unfold jsRound
      rw [Int.floor_eq_iff]
      constructor <;> norm_num
    simp [getStationData, readingsNegDir, hfloor]
  · decide

/-- C4 amended: the snapshot's winddir is `Math.round(value * 180 / π)`
with no wrapping; for upstream values in [0, 2π) the result lies in
[0, 360] (a value just below 2π rounds up to 360), and values outside
[0, 2π) can land outside [0, 360). -/
theorem C4_amended_winddir_unwrapped (r : SensorReadings) (v : ℝ)
    (hv : r.windDir = some v) (h0 : 0 ≤ v) (h2 : v < 2 * Real.pi) :
    (getStationData r).winddir = some (jsRound (v * 180 / Real.pi)) ∧
    0 ≤ jsRound (v * 180 / Real.pi) ∧ jsRound (v * 180 / Real.pi) ≤ 360 := by
  have hπ := Real.pi_pos
  have hdeg0 : 0 ≤ v * 180 / Real.pi := by positivity
  have hdeg1 : v * 180 / Real.pi < 360 := by
    rw [div_lt_iff₀ hπ]
    linarith
  refine ⟨by simp [getStationData, hv], ?_, ?_⟩
  · unfold jsRound
    exact Int.le_floor.mpr (by push_cast; linarith)
  · have h361 : jsRound (v * 180 / Real.pi) < 361 := by
      unfold jsRound
      exact Int.floor_lt.mpr (by push_cast; linarith)
    omega

/-- Witness for C4 amended at the upstream bearing π rad (180°). -/
theorem C4_amended_winddir_unwrapped_witness :
    (readingsDir.windDir = some Real.pi ∧ 0 ≤ Real.pi ∧ Real.pi < 2 * Real.pi) ∧
    ((getStationData readingsDir).winddir
        = some (jsRound (Real.pi * 180 / Real.pi)) ∧
      0 ≤ jsRound (Real.pi * 180 / Real.pi) ∧
      jsRound (Real.pi * 180 / Real.pi) ≤ 360) := by
  have h0 : (0 : ℝ) ≤ Real.pi := Real.pi_pos.le
  have h2 : Real.pi < 2 * Real.pi := by linarith [Real.pi_pos]
  exact ⟨⟨rfl, h0, h2⟩, C4_amended_winddir_unwrapped readingsDir Real.pi rfl h0 h2⟩

/-- C9: a (0, 0) sample is never adopted as an effective baseline — the
seeded test `!lastSentPos.lat` still reports unseeded after a (0, 0) sample
seeds (and a seeded guard keeps its old baseline) — and along every
operation sequence no displacement computation ever measures from a
baseline equal to (0, 0). -/
theorem C9_zero_sample_never_baseline :
    (∀ s : EngineState,
      isSeeded (handlePositionUpdate s { latitude := 0, longitude := 0 })
        ↔ isSeeded s) ∧
    (∀ (ops : List GuardOp) (s : EngineState) (e : DispComp),
      e ∈ (guardRun s ops).2 → ¬ (e.baseLat = 0 ∧ e.baseLon = 0)) := by
  constructor
  · intro s
    by_cases h : s.lastSentPos.lat = 0
    · simp [handlePositionUpdate, isSeeded, h]
    · simp [handlePositionUpdate, isSeeded, h]
  · intro ops
    induction ops with
    | nil =>
      intro s e he
      simp [guardRun] at he
    | cons op ops ih =>
      intro s e he
      simp only [guardRun, List.mem_append] at he
      rcases he with he | he
      · cases op with
        | observe p =>
          by_cases h : s.lastSentPos.lat = 0
          · simp [guardStep, h] at he
          · simp only [guardStep, if_neg h, List.mem_singleton] at he
            subst he
            exact fun hc => h hc.1
        | commit p =>
          simp [guardStep] at he
      · exact ih _ e he

/-- Witness for C9: from a guard seeded at (10, 20), observing the (0, 0)
no-fix sentinel produces one displacement computation, and its baseline is
(10, 20), not (0, 0). -/
theorem C9_zero_sample_never_baseline_witness :
    demoDisp ∈ (guardRun guardDemoState [GuardOp.observe zeroPos]).2 ∧
    ¬ (demoDisp.baseLat = 0 ∧ demoDisp.baseLon = 0) := by
  have hmem : demoDisp ∈ (guardRun guardDemoState [GuardOp.observe zeroPos]).2 := by
    norm_num [guardRun, guardStep, guardDemoState, demoDisp]
  exact ⟨hmem, C9_zero_sample_never_baseline.2
    [GuardOp.observe zeroPos] guardDemoState _ hmem⟩

end Windy
